import Mathlib

/-!
# FairForm submission pipeline — verification of spec claims

Shallow embedding of the FairForm booth-registration server
(`src/unnamed/part_000`, plus the revisions in `src/server.js`).
JavaScript record values are modelled by `JsValue`; network calls are
modelled by oracle functions returning `Except`, with the sequence of
calls made tracked explicitly where a claim is about it.
-/

/-- A JavaScript value as it can occur in the Submission Record: the
record fields are strings, the three upload counts are numbers, and the
row-mapper also guards against `undefined` and `null` values and joins
arrays.  Array elements in this application are strings (multi-valued
form fields), so arrays are modelled as lists of strings. -/
inductive JsValue where
  | undefined
  | null
  | str (s : String)
  | num (n : Nat)
  | arr (xs : List String)
deriving Repr, DecidableEq

/-- The static header-to-record-key mapping of `appendRow`
(src/unnamed/part_000 lines 139-168): identity on the known headers,
except the header with a space, plus `none` for unknown headers
(in JS, indexing the object with an unknown header gives `undefined`). -/
def headerToRecordKey (h : String) : Option String :=
  List.lookup h
    [("ID", "ID"), ("FairName", "FairName"), ("CompanyName", "CompanyName"),
     ("ContactPerson", "ContactPerson"), ("ContactEmail", "ContactEmail"),
     ("MobileNumber", "MobileNumber"), ("Designation", "Designation"),
     ("KeyProductCategory", "KeyProductCategory"), ("CompanyType", "CompanyType"),
     ("Materials", "Materials"), ("FullAddress", "FullAddress"),
     ("CompanyLocation", "CompanyLocation"), ("City", "City"),
     ("Country", "Country"), ("ProvinceState", "ProvinceState"),
     ("NearestAirport", "NearestAirport"), ("NearestTrain", "NearestTrain"),
     ("GlobalBaseContact", "GlobalBaseContact"),
     ("GlobalBaseContactEmail", "GlobalBaseContactEmail"),
     ("VisitingCardCount", "VisitingCardCount"),
     ("BoothPhotoCount", "BoothPhotoCount"),
     ("CatalogueCount", "CatalogueCount"), ("Message", "Message"),
     ("FolderLink", "FolderLink"), ("Timestamp", "Timestamp"),
     ("Status Mail", "StatusMail"), ("MailCondition", "MailCondition")]

/-- The cell-rendering branches of `appendRow`
(src/unnamed/part_000 lines 174-175):
`if (val === undefined || val === null) return '';`
`return Array.isArray(val) ? val.join(', ') : String(val);`
`String` of a string is the string itself and `String` of a count is its
decimal rendering. -/
def renderCell : JsValue → JsValue
  | .undefined => .str ""
  | .null => .str ""
  | .arr xs => .str (String.intercalate ", " xs)
  | .str s => .str s
  | .num n => .str (toString n)

/-- One cell of the row (src/unnamed/part_000 lines 171-176):
`const key = headerToRecordKey[h]; const val = key ? record[key] : '';`
followed by `renderCell`.  Every value of `headerToRecordKey` is a
nonempty string, so JS truthiness of `key` coincides with presence. -/
def cellFor (record : String → JsValue) (h : String) : JsValue :=
  renderCell (match headerToRecordKey h with
    | some key => record key
    | none => .str "")

/-- The row built by `appendRow` from the fetched column names
(src/unnamed/part_000 line 171): `colNames.map(h => ...)`. -/
def rowValues (colNames : List String) (record : String → JsValue) : List JsValue :=
  colNames.map (cellFor record)

/-- Trace of one `uploadGroup` run: which files had an upload call
issued, how many upload calls succeeded, and the overall result
(`.ok count` mirrors `return count;`, `.error e` mirrors the exception
escaping the loop). -/
structure UploadTrace (F E : Type) where
  attempted : List F
  uploaded : Nat
  result : Except E Nat

/-- `uploadGroup` (src/unnamed/part_000 lines 91-100): a counter starts
at zero, the files are uploaded in order, each successful
`graphPutBinary` increments the counter, and a rejected upload makes
the whole call reject at once.  `up f` is the oracle for the remote
result of uploading file `f`. -/
def uploadGroup {F E : Type} (up : F → Except E Unit) : List F → UploadTrace F E
  | [] => ⟨[], 0, .ok 0⟩
  | f :: fs =>
    match up f with
    | .error e => ⟨[f], 0, .error e⟩
    | .ok _ =>
      let t := uploadGroup up fs
      ⟨f :: t.attempted, t.uploaded + 1,
        match t.result with
        | .ok n => .ok (n + 1)
        | .error e => .error e⟩

/-- The two request bodies the Formula Patcher can send
(src/unnamed/part_000 lines 241 and 248): the comma-locale `formulas`
field and the alternate-locale `formulasLocal` field. -/
inductive PatchPayload where
  | formulas
  | formulasLocal
deriving Repr, DecidableEq

/-- The try/catch around the two range PATCH calls of
`applyMailConditionFormulaToLastRow` (src/unnamed/part_000
lines 238-251): try the `formulas` payload; on rejection, issue exactly
one further call with the `formulasLocal` payload, whose result is the
function's result.  Returns the ordered list of PATCH calls issued and
the outcome.  `patch p` is the oracle for the remote result. -/
def applyMailConditionFormulaPatch {E : Type} (patch : PatchPayload → Except E Unit) :
    List PatchPayload × Except E Unit :=
  match patch .formulas with
  | .ok _ => ([.formulas], .ok ())
  | .error _ => ([.formulas, .formulasLocal], patch .formulasLocal)

/-- The JSON responses the `/api/submit` handler can send: the success
body `{ok:true, id, folder, counts:{...}}` (src/unnamed/part_000
lines 320-325) or the 500 failure body `{ok:false, error}`
(line 329; the forwarded diagnostic payload is not modelled). -/
inductive SubmitResponse where
  | ok (id folder : String) (visitingCard boothPhotos catalogue : Nat)
  | fail
deriving Repr, DecidableEq

/-- The tail of the submit handler after a successful row append
(src/unnamed/part_000 lines 313-325): `applyMailConditionFormulaToLastRow`
runs inside its own try/catch whose catch only logs, and then the
success response is sent unconditionally. -/
def handlerAfterAppend {E : Type} (patch : PatchPayload → Except E Unit)
    (id folderUrl : String) (vc bp ct : Nat) : SubmitResponse :=
  let _patchOutcome := applyMailConditionFormulaPatch patch
  SubmitResponse.ok id folderUrl vc bp ct

/-- An error escaping `appendRow`: either a rejected remote call or
the locally thrown `Error` message. -/
inductive AppendError (E : Type) where
  | remote (e : E)
  | thrown (msg : String)

/-- One run of `appendRow` (src/unnamed/part_000 lines 127-181) against
oracles for the two remote calls: fetch the column names
(`fetchColumns`; an `.ok` with an empty list models a response whose
`value` is missing or empty), throw before anything else if the list is
empty, otherwise build the row and issue the single `rows/add` call
(`addRow`).  The boolean records whether a `rows/add` call was issued. -/
def appendRowRun {E : Type} (fetchColumns : Except E (List String))
    (addRow : List JsValue → Except E Unit) (record : String → JsValue) :
    Bool × Except (AppendError E) Unit :=
  match fetchColumns with
  | .error e => (false, .error (.remote e))
  | .ok colNames =>
    if colNames.isEmpty then
      (false, .error (.thrown "Could not read table columns; check TABLE_NAME and workbook access."))
    else
      match addRow (rowValues colNames record) with
      | .ok _ => (true, .ok ())
      | .error e => (true, .error (.remote e))

/-- The handler around `appendRow` (src/unnamed/part_000 lines 310-330):
a successful append reaches the success response, and an error thrown by
`appendRow` is caught by the handler's outer catch, which sends the 500
failure response.  Paired with whether a `rows/add` call was issued. -/
def submitAppendPhase {E : Type} (fetchColumns : Except E (List String))
    (addRow : List JsValue → Except E Unit) (record : String → JsValue)
    (id folderUrl : String) (vc bp ct : Nat) : Bool × SubmitResponse :=
  match appendRowRun fetchColumns addRow record with
  | (called, .ok _) => (called, .ok id folderUrl vc bp ct)
  | (called, .error _) => (called, .fail)

/-- ASCII whitespace, modelling the characters `\s` matches and
`String.prototype.trim` strips in the labels at hand (the full JS class
also has some Unicode space characters, not used by this application). -/
def isJsSpace (c : Char) : Bool :=
  c = ' ' || c = '\t' || c = '\n' || c = '\r' || c = '\x0b' || c = '\x0c'

/-- Membership in the character class `[\w. ]` of the folder-name
sanitizer (src/unnamed/part_000 line 80): word characters
(ASCII letters, digits, underscore), dot, space. -/
def allowedFolderChar (c : Char) : Bool :=
  c.isAlpha || c.isDigit || c = '_' || c = '.' || c = ' '

/-- `String.prototype.trim`: drop whitespace from both ends. -/
def jsTrim (l : List Char) : List Char :=
  ((l.dropWhile isJsSpace).reverse.dropWhile isJsSpace).reverse

/-- The sanitized label of `createResponseFolder`
(src/unnamed/part_000 line 80):
`(fairOrCompany || '').trim().replace(/[^\w. ]/g, '_').slice(0, 60)` —
each character outside `[\w. ]` is replaced by an underscore. -/
def safeTail (label : String) : String :=
  String.mk (((jsTrim label.toList).map
    (fun c => if allowedFolderChar c then c else '_')).take 60)

/-- The folder name of `createResponseFolder`
(src/unnamed/part_000 line 81):
the identifier, then an underscore and the sanitized label when that
label is nonempty (JS string truthiness). -/
def folderName (readableIdent label : String) : String :=
  readableIdent ++ (if safeTail label = "" then "" else "_" ++ safeTail label)

/-- The sanitized label as the spec and claim C4 describe it —
"stripping characters outside word-characters/dot/space" — written from
those words for comparison with `safeTail`, which is translated from the
source and replaces such characters with underscores instead. -/
def specSanitizedLabel (label : String) : String :=
  String.mk (((jsTrim label.toList).filter allowedFolderChar).take 60)

/-- The folder name as claim C4 describes it, built on
`specSanitizedLabel`; written from the claim's words for comparison
with `folderName`. -/
def specFolderName (readableIdent label : String) : String :=
  if specSanitizedLabel label = "" then readableIdent
  else readableIdent ++ "_" ++ specSanitizedLabel label

/-- Zero-padded two-digit decimal rendering, as `toISOString` prints
month, day, hour, minute and second fields (faithful for values
below 100; calendar fields are below 60). -/
def pad2 (n : Nat) : List Char :=
  [Nat.digitChar (n / 10 % 10), Nat.digitChar (n % 10)]

/-- Zero-padded three-digit decimal rendering, as `toISOString` prints
the milliseconds field (faithful below 1000). -/
def pad3 (n : Nat) : List Char :=
  [Nat.digitChar (n / 100 % 10), Nat.digitChar (n / 10 % 10), Nat.digitChar (n % 10)]

/-- Zero-padded four-digit decimal rendering, as `toISOString` prints
the year (faithful for years 0-9999, the range in which `toISOString`
uses the plain `YYYY-MM-DDTHH:mm:ss.sssZ` format). -/
def pad4 (n : Nat) : List Char :=
  [Nat.digitChar (n / 1000 % 10), Nat.digitChar (n / 100 % 10),
   Nat.digitChar (n / 10 % 10), Nat.digitChar (n % 10)]

/-- The clock fields a JS `Date` exposes through `toISOString`
(UTC, millisecond precision). -/
structure JsDate where
  year : Nat
  month : Nat
  day : Nat
  hour : Nat
  minute : Nat
  second : Nat
  ms : Nat

/-- `Date.prototype.toISOString`: the `YYYY-MM-DDTHH:mm:ss.sssZ` wire
format. -/
def toISOString (d : JsDate) : String :=
  String.mk (pad4 d.year ++ '-' :: pad2 d.month ++ '-' :: pad2 d.day ++
    'T' :: pad2 d.hour ++ ':' :: pad2 d.minute ++ ':' :: pad2 d.second ++
    '.' :: pad3 d.ms ++ ['Z'])

/-- Membership in the character class `[-:.TZ]` removed by the
identifier builder (src/unnamed/part_000 line 267). -/
def strippedByIdRegex (c : Char) : Bool :=
  c = '-' || c = ':' || c = '.' || c = 'T' || c = 'Z'

/-- The compact timestamp of the identifier
(src/unnamed/part_000 line 267):
`new Date().toISOString().replace(/[-:.TZ]/g, '').slice(0, 14)`. -/
def compactTimestamp (d : JsDate) : List Char :=
  ((toISOString d).toList.filter (fun c => !strippedByIdRegex c)).take 14

/-- The Readable Identifier (src/unnamed/part_000 line 267):
`'FORM_' + <compact timestamp> + '_' + uuidv4().slice(0, 6).toUpperCase()`.
The freshly drawn UUID string is a parameter. -/
def readableId (d : JsDate) (uuid : String) : String :=
  "FORM_" ++ String.mk (compactTimestamp d) ++ "_" ++
    String.mk ((uuid.toList.take 6).map Char.toUpper)

/-- `normalizeName` (src/unnamed/part_000 lines 103-109): lower-case,
remove all dots, strip a leading honorific (`/^\s*mr\s+/`: optional
leading whitespace, the letters `mr`, at least one whitespace — the
greedy match removes the whole leading whitespace run after `mr`),
then trim. -/
def stripLeadingMr (l : List Char) : List Char :=
  match l.dropWhile isJsSpace with
  | 'm' :: 'r' :: c :: rest => if isJsSpace c then (c :: rest).dropWhile isJsSpace else l
  | _ => l

/-- `normalizeName` itself: the composition in source order. -/
def normalizeName (s : String) : String :=
  String.mk (jsTrim (stripLeadingMr ((s.toList.map Char.toLower).filter
    (fun c => c != '.'))))

/-- The static Contact-to-Email directory of `getGbEmail`
(src/unnamed/part_000 lines 112-120). -/
def gbDirectory : List (String × String) :=
  [("amjad abbas", "amjad@globalbasesourcing.com"),
   ("azhar abbas", "azhar@globalbasesourcing.com"),
   ("ted", "ted@globalbasesourcing.com"),
   ("clark", "purchase5@globalbasesourcing.com"),
   ("oscar", "purchase1@globalbasesourcing.com"),
   ("jack", "purchase2@globalbasesourcing.com"),
   ("zhong", "purchase4@globalbasesourcing.com")]

/-- `n.split(/\s+/)[0]` for a trimmed `n`: the maximal leading run of
non-whitespace characters. -/
def firstToken (n : String) : String :=
  String.mk (n.toList.takeWhile (fun c => !isJsSpace c))

/-- `getGbEmail` (src/unnamed/part_000 lines 110-124): look the
normalized name up in the directory, fall back to its first token,
default to the empty string.  Every directory value is a nonempty
string, so the JS truthiness test `if (map[n])` coincides with key
presence. -/
def getGbEmail (displayName : String) : String :=
  match gbDirectory.lookup (normalizeName displayName) with
  | some e => e
  | none => (gbDirectory.lookup (firstToken (normalizeName displayName))).getD ""

/-- `colLettersToNumber` (src/unnamed/part_000 lines 214-215):
`letters.toUpperCase().split('').reduce((sum, ch) => sum * 26 + (ch.charCodeAt(0) - 64), 0)`. -/
def colLettersToNumber (letters : String) : Nat :=
  (letters.toList.map Char.toUpper).foldl (fun sum ch => sum * 26 + (ch.toNat - 64)) 0

/-- The loop of `colNumberToLetters` (src/unnamed/part_000
lines 216-220) in recursive form: the iteration handling the current
`n` contributes the letter for `(n - 1) % 26` after (to the right of)
all letters contributed for `(n - 1) / 26`. -/
def colNumberToLettersAux (n : Nat) : List Char :=
  if _hn : n = 0 then []
  else colNumberToLettersAux ((n - 1) / 26) ++ [Char.ofNat (65 + (n - 1) % 26)]
termination_by n
decreasing_by
  have h26 := Nat.div_le_self (n - 1) 26
  omega

/-- `colNumberToLetters` (src/unnamed/part_000 lines 216-220). -/
def colNumberToLetters (n : Nat) : String :=
  String.mk (colNumberToLettersAux n)

/-- The optional text fields of the multipart form body read by the
submit handler (src/unnamed/part_000 lines 282-303): `none` models an
absent field (`undefined` in `req.body`). -/
structure FormBody where
  fairName : Option String := none
  companyName : Option String := none
  contactPerson : Option String := none
  contactEmail : Option String := none
  phoneFull : Option String := none
  designation : Option String := none
  keyProductCategory : Option String := none
  companyType : Option String := none
  materials : Option String := none
  fullAddress : Option String := none
  companyLocation : Option String := none
  city : Option String := none
  country : Option String := none
  provinceState : Option String := none
  nearestAirport : Option String := none
  nearestTrain : Option String := none
  gbContact : Option String := none
  message : Option String := none

/-- The Submission Record object built by the handler
(src/unnamed/part_000 lines 280-308), one field per property. -/
structure SubmissionRecord where
  ID : JsValue
  FairName : JsValue
  CompanyName : JsValue
  ContactPerson : JsValue
  ContactEmail : JsValue
  MobileNumber : JsValue
  Designation : JsValue
  KeyProductCategory : JsValue
  CompanyType : JsValue
  Materials : JsValue
  FullAddress : JsValue
  CompanyLocation : JsValue
  City : JsValue
  Country : JsValue
  ProvinceState : JsValue
  NearestAirport : JsValue
  NearestTrain : JsValue
  GlobalBaseContact : JsValue
  GlobalBaseContactEmail : JsValue
  VisitingCardCount : JsValue
  BoothPhotoCount : JsValue
  CatalogueCount : JsValue
  Message : JsValue
  FolderLink : JsValue
  Timestamp : JsValue
  StatusMail : JsValue
  MailCondition : JsValue

/-- The record construction of the handler (src/unnamed/part_000
lines 280-308): each user-supplied text field is copied through
`req.body.x || ''` (absent gives the empty string), the derived email
comes from `getGbEmail`, the three counts are the `uploadGroup`
results, and the remaining fields are the computed link, timestamp and
two blanks. -/
def buildRecord (b : FormBody) (ident : String) (vcCount bpCount ctCount : Nat)
    (folderWebUrl timestamp : String) : SubmissionRecord :=
  ⟨.str ident,
   .str (b.fairName.getD ""),
   .str (b.companyName.getD ""),
   .str (b.contactPerson.getD ""),
   .str (b.contactEmail.getD ""),
   .str (b.phoneFull.getD ""),
   .str (b.designation.getD ""),
   .str (b.keyProductCategory.getD ""),
   .str (b.companyType.getD ""),
   .str (b.materials.getD ""),
   .str (b.fullAddress.getD ""),
   .str (b.companyLocation.getD ""),
   .str (b.city.getD ""),
   .str (b.country.getD ""),
   .str (b.provinceState.getD ""),
   .str (b.nearestAirport.getD ""),
   .str (b.nearestTrain.getD ""),
   .str (b.gbContact.getD ""),
   .str (getGbEmail (b.gbContact.getD "")),
   .num vcCount,
   .num bpCount,
   .num ctCount,
   .str (b.message.getD ""),
   .str folderWebUrl,
   .str timestamp,
   .str "",
   .str ""⟩

/-- JS property access `record[key]` on a Submission Record: the field
for a known key, `undefined` for any other key. -/
def recordGet (r : SubmissionRecord) (key : String) : JsValue :=
  match key with
  | "ID" => r.ID
  | "FairName" => r.FairName
  | "CompanyName" => r.CompanyName
  | "ContactPerson" => r.ContactPerson
  | "ContactEmail" => r.ContactEmail
  | "MobileNumber" => r.MobileNumber
  | "Designation" => r.Designation
  | "KeyProductCategory" => r.KeyProductCategory
  | "CompanyType" => r.CompanyType
  | "Materials" => r.Materials
  | "FullAddress" => r.FullAddress
  | "CompanyLocation" => r.CompanyLocation
  | "City" => r.City
  | "Country" => r.Country
  | "ProvinceState" => r.ProvinceState
  | "NearestAirport" => r.NearestAirport
  | "NearestTrain" => r.NearestTrain
  | "GlobalBaseContact" => r.GlobalBaseContact
  | "GlobalBaseContactEmail" => r.GlobalBaseContactEmail
  | "VisitingCardCount" => r.VisitingCardCount
  | "BoothPhotoCount" => r.BoothPhotoCount
  | "CatalogueCount" => r.CatalogueCount
  | "Message" => r.Message
  | "FolderLink" => r.FolderLink
  | "Timestamp" => r.Timestamp
  | "StatusMail" => r.StatusMail
  | "MailCondition" => r.MailCondition
  | _ => .undefined

lemma renderCell_eq (v : JsValue) :
    renderCell v =
      match v with
      | .undefined => JsValue.str ""
      | .null => JsValue.str ""
      | .str s => JsValue.str s
      | .num n => JsValue.str (toString n)
      | .arr xs => JsValue.str (String.intercalate ", " xs) := by
  cases v <;> rfl

lemma renderCell_is_str (v : JsValue) : ∃ s, renderCell v = JsValue.str s := by
  cases v <;> exact ⟨_, rfl⟩

lemma cellFor_eq (record : String → JsValue) (h : String) :
    cellFor record h =
      match headerToRecordKey h with
      | none => JsValue.str ""
      | some key =>
        match record key with
        | .undefined => JsValue.str ""
        | .null => JsValue.str ""
        | .str s => JsValue.str s
        | .num n => JsValue.str (toString n)
        | .arr xs => JsValue.str (String.intercalate ", " xs) := by
  unfold cellFor
  cases headerToRecordKey h with
  | none => rfl
  | some key => exact renderCell_eq (record key)

/-- C1: for every fetched schema and every record, the row built by the
row mapper has exactly one value per live column — its length equals
the schema's length, so the append never fails due to width mismatch —
and positionally each cell is the rendered record value of the column's
mapped key under the static header-to-record-key mapping, with the
empty string when the column has no known mapping or the mapped value
is `undefined` or `null`. -/
theorem row_mapper_schema_alignment (colNames : List String) (record : String → JsValue) :
    (rowValues colNames record).length = colNames.length ∧
    ∀ i : Nat, (rowValues colNames record)[i]? =
      (colNames[i]?).map (fun h =>
        match headerToRecordKey h with
        | none => JsValue.str ""
        | some key =>
          match record key with
          | .undefined => JsValue.str ""
          | .null => JsValue.str ""
          | .str s => JsValue.str s
          | .num n => JsValue.str (toString n)
          | .arr xs => JsValue.str (String.intercalate ", " xs)) := by
  constructor
  · simp [rowValues]
  · intro i
    rw [rowValues, List.getElem?_map]
    cases colNames[i]? with
    | none => rfl
    | some h => simp [cellFor_eq]

/-- C10: every element of the row array handed to the `rows/add` call
is a string: numeric values are rendered in decimal by `String`, array
values are joined with a comma and a space, and `undefined` or `null`
record values become the empty string. -/
theorem row_cells_always_strings (colNames : List String) (record : String → JsValue) :
    (∀ v ∈ rowValues colNames record, ∃ s : String, v = JsValue.str s) ∧
    renderCell .undefined = .str "" ∧
    renderCell .null = .str "" ∧
    (∀ n : Nat, renderCell (.num n) = .str (toString n)) ∧
    (∀ xs : List String, renderCell (.arr xs) = .str (String.intercalate ", " xs)) := by
  refine ⟨?_, rfl, rfl, fun n => rfl, fun xs => rfl⟩
  intro v hv
  rw [rowValues] at hv
  obtain ⟨h, _, rfl⟩ := List.mem_map.mp hv
  unfold cellFor
  exact renderCell_is_str _

theorem row_cells_always_strings_witness :
    ∃ s : String, JsValue.str "FORM_1" = JsValue.str s :=
  (row_cells_always_strings ["ID"] (fun _ => .str "FORM_1")).1
    (JsValue.str "FORM_1") (by decide)

/-- C2: uploading an ordered file group is fail-fast — when every file
before the k-th uploads fine and the k-th upload is rejected, the group
call propagates that remote error, exactly the k-1 earlier files count
as uploaded, and no upload call is issued for any file after the
k-th. -/
theorem upload_group_fail_fast {F E : Type} (up : F → Except E Unit)
    (pre : List F) (fk : F) (post : List F) (e : E)
    (hpre : ∀ f ∈ pre, up f = .ok ()) (hfk : up fk = .error e) :
    uploadGroup up (pre ++ fk :: post) = ⟨pre ++ [fk], pre.length, .error e⟩ := by
  induction pre with
  | nil => simp [uploadGroup, hfk]
  | cons f fs ih =>
    have hf : up f = .ok () := hpre f (by simp)
    have ih2 := ih (fun g hg => hpre g (by simp [hg]))
    simp [uploadGroup, hf, ih2]

theorem upload_group_fail_fast_witness :
    uploadGroup
        (fun f => if f = "b.pdf" then Except.error "remote 500" else Except.ok ())
        ["a.pdf", "b.pdf", "c.pdf"] =
      ⟨["a.pdf", "b.pdf"], 1, .error "remote 500"⟩ :=
  upload_group_fail_fast _ ["a.pdf"] "b.pdf" ["c.pdf"] "remote 500"
    (by intro f hf; simp at hf; subst hf; rfl) rfl

/-- C3: the Formula Patcher is non-fatal with exactly one fallback
retry — after a successful row append, a rejected `formulas` PATCH is
followed by exactly one further PATCH using `formulasLocal`, a
successful first PATCH is followed by none, and whatever the patch
outcomes, the handler still sends the success response with the
identifier, folder link and counts. -/
theorem formula_patch_nonfatal {E : Type} (patch : PatchPayload → Except E Unit)
    (id url : String) (vc bp ct : Nat) :
    handlerAfterAppend patch id url vc bp ct = SubmitResponse.ok id url vc bp ct ∧
    (∀ e, patch .formulas = .error e →
      (applyMailConditionFormulaPatch patch).1 = [.formulas, .formulasLocal]) ∧
    (patch .formulas = .ok () →
      (applyMailConditionFormulaPatch patch).1 = [.formulas]) := by
  refine ⟨rfl, ?_, ?_⟩
  · intro e he
    simp [applyMailConditionFormulaPatch, he]
  · intro hok
    simp [applyMailConditionFormulaPatch, hok]

theorem formula_patch_nonfatal_witness :
    handlerAfterAppend (fun _ => (Except.error "bad payload" : Except String Unit))
        "FORM_1" "http" 1 0 0 = SubmitResponse.ok "FORM_1" "http" 1 0 0 ∧
    (applyMailConditionFormulaPatch
        (fun _ => (Except.error "bad payload" : Except String Unit))).1 =
      [.formulas, .formulasLocal] := by
  have h := formula_patch_nonfatal
    (fun _ => (Except.error "bad payload" : Except String Unit)) "FORM_1" "http" 1 0 0
  exact ⟨h.1, h.2.1 "bad payload" rfl⟩

/-- C7: a failed or empty column fetch is fatal and precedes the
append — `appendRow` ends in an error, no `rows/add` call is issued,
and the handler sends the failure response. -/
theorem schema_failure_fatal {E : Type} (fetchColumns : Except E (List String))
    (addRow : List JsValue → Except E Unit) (record : String → JsValue)
    (id url : String) (vc bp ct : Nat)
    (h : fetchColumns = .ok [] ∨ ∃ e, fetchColumns = .error e) :
    (appendRowRun fetchColumns addRow record).1 = false ∧
    (∃ err, (appendRowRun fetchColumns addRow record).2 = .error err) ∧
    submitAppendPhase fetchColumns addRow record id url vc bp ct = (false, .fail) := by
  rcases h with h | ⟨e, h⟩ <;> subst h <;> exact ⟨rfl, ⟨_, rfl⟩, rfl⟩

theorem schema_failure_fatal_witness :
    submitAppendPhase (Except.ok ([] : List String))
        (fun _ => (Except.ok () : Except String Unit)) (fun _ => JsValue.undefined)
        "FORM_1" "http" 0 0 0 = (false, SubmitResponse.fail) :=
  (schema_failure_fatal _ _ _ _ _ _ _ _ (Or.inl rfl)).2.2

/-- C4 counterexample: the sanitizer does not strip characters outside
the class `[\w. ]` — it replaces each of them with an underscore — so
on the label consisting of a single exclamation mark the code produces
the folder name with a nonempty `"_"` tail, while the folder name the
claim describes (built on a label sanitized by stripping) is the bare
identifier. -/
theorem folder_name_strip_counterexample :
    folderName "FORM_X" "!" ≠ specFolderName "FORM_X" "!" ∧
    folderName "FORM_X" "!" = "FORM_X__" ∧
    specFolderName "FORM_X" "!" = "FORM_X" := by
  refine ⟨?_, by decide, by decide⟩
  decide

/-- C4 amended: the folder name is the identifier when the sanitized
label is empty, and otherwise the identifier, an underscore and the
sanitized label, where the sanitized label is the trimmed label with
each character outside word-characters/dot/space replaced by an
underscore, truncated to 60 characters; consequently it never contains
a character outside `[\w. ]` and never exceeds 60 characters. -/
theorem folder_name_sanitization (ident label : String) :
    (safeTail label = "" → folderName ident label = ident) ∧
    (safeTail label ≠ "" → folderName ident label = ident ++ ("_" ++ safeTail label)) ∧
    (∀ c ∈ (safeTail label).toList, allowedFolderChar c = true) ∧
    (safeTail label).length ≤ 60 := by
  refine ⟨?_, ?_, ?_, ?_⟩
  · intro h
    simp [folderName, h]
  · intro h
    simp [folderName, h]
  · intro c hc
    have hc2 : c ∈ (jsTrim label.toList).map
        (fun c => if allowedFolderChar c then c else '_') :=
      List.mem_of_mem_take hc
    obtain ⟨x, _, rfl⟩ := List.mem_map.mp hc2
    by_cases hx : allowedFolderChar x = true
    · simp [hx]
    · simp [hx]
      decide
  · simp [safeTail]

theorem folder_name_sanitization_witness :
    folderName "FORM_X" "Acme Corp" = "FORM_X" ++ ("_" ++ safeTail "Acme Corp") ∧
    (safeTail "Acme Corp").length ≤ 60 :=
  ⟨(folder_name_sanitization "FORM_X" "Acme Corp").2.1 (by decide),
   (folder_name_sanitization "FORM_X" "Acme Corp").2.2.2⟩

/-- C8: every user-supplied textual form field that is absent from the
request body yields the empty string — not an absent or undefined
value — at its key of the built Submission Record. -/
theorem record_builder_default_empty (b : FormBody) (ident : String)
    (vc bp ct : Nat) (url ts : String) :
    (b.fairName = none → (buildRecord b ident vc bp ct url ts).FairName = .str "") ∧
    (b.companyName = none → (buildRecord b ident vc bp ct url ts).CompanyName = .str "") ∧
    (b.contactPerson = none → (buildRecord b ident vc bp ct url ts).ContactPerson = .str "") ∧
    (b.contactEmail = none → (buildRecord b ident vc bp ct url ts).ContactEmail = .str "") ∧
    (b.phoneFull = none → (buildRecord b ident vc bp ct url ts).MobileNumber = .str "") ∧
    (b.designation = none → (buildRecord b ident vc bp ct url ts).Designation = .str "") ∧
    (b.keyProductCategory = none → (buildRecord b ident vc bp ct url ts).KeyProductCategory = .str "") ∧
    (b.companyType = none → (buildRecord b ident vc bp ct url ts).CompanyType = .str "") ∧
    (b.materials = none → (buildRecord b ident vc bp ct url ts).Materials = .str "") ∧
    (b.fullAddress = none → (buildRecord b ident vc bp ct url ts).FullAddress = .str "") ∧
    (b.companyLocation = none → (buildRecord b ident vc bp ct url ts).CompanyLocation = .str "") ∧
    (b.city = none → (buildRecord b ident vc bp ct url ts).City = .str "") ∧
    (b.country = none → (buildRecord b ident vc bp ct url ts).Country = .str "") ∧
    (b.provinceState = none → (buildRecord b ident vc bp ct url ts).ProvinceState = .str "") ∧
    (b.nearestAirport = none → (buildRecord b ident vc bp ct url ts).NearestAirport = .str "") ∧
    (b.nearestTrain = none → (buildRecord b ident vc bp ct url ts).NearestTrain = .str "") ∧
    (b.gbContact = none → (buildRecord b ident vc bp ct url ts).GlobalBaseContact = .str "") ∧
    (b.message = none → (buildRecord b ident vc bp ct url ts).Message = .str "") := by
  repeat' constructor
  all_goals intro h
  all_goals simp [buildRecord, h]

theorem record_builder_default_empty_witness :
    (buildRecord
        ⟨none, some "Acme Corp", none, none, none, none, none, none, none,
         none, none, none, none, none, none, none, none, none⟩
        "FORM_1" 1 0 0 "http" "2026-10-11T00:00:00.000Z").FairName = .str "" :=
  (record_builder_default_empty
    ⟨none, some "Acme Corp", none, none, none, none, none, none, none,
     none, none, none, none, none, none, none, none, none⟩
    "FORM_1" 1 0 0 "http" "2026-10-11T00:00:00.000Z").1 rfl

/-- C6: the contact-to-email resolver normalizes the display name
(lower-casing, removing all periods, stripping a leading honorific
token and trimming) and returns the directory entry for the full
normalized name when present, otherwise the entry for its first
whitespace-separated token (defaulting to the empty string); in
particular the display name with the honorific and period resolves to
the expected address. -/
theorem contact_email_resolution :
    normalizeName "Mr. Ted" = "ted" ∧
    getGbEmail "Mr. Ted" = "ted@globalbasesourcing.com" ∧
    (∀ s e, gbDirectory.lookup (normalizeName s) = some e → getGbEmail s = e) ∧
    (∀ s, gbDirectory.lookup (normalizeName s) = none →
      getGbEmail s = (gbDirectory.lookup (firstToken (normalizeName s))).getD "") := by
  refine ⟨by decide, by decide, ?_, ?_⟩
  · intro s e h
    simp [getGbEmail, h]
  · intro s h
    simp [getGbEmail, h]

theorem contact_email_resolution_witness :
    getGbEmail "Clark Kent" = "purchase5@globalbasesourcing.com" := by
  have h := contact_email_resolution.2.2.2 "Clark Kent" (by decide)
  rw [h]
  decide

lemma digitChar_props (k : Nat) :
    (Nat.digitChar (k % 10)).isDigit = true ∧
    strippedByIdRegex (Nat.digitChar (k % 10)) = false := by
  have h : k % 10 < 10 := Nat.mod_lt _ (by norm_num)
  exact (by decide :
    ∀ m < 10, (Nat.digitChar m).isDigit = true ∧
      strippedByIdRegex (Nat.digitChar m) = false) _ h

lemma filter_strip_cons (c : Char) (l : List Char)
    (hc : strippedByIdRegex c = true) :
    (c :: l).filter (fun x => !strippedByIdRegex x) =
      l.filter (fun x => !strippedByIdRegex x) := by
  simp [List.filter_cons, hc]

lemma filter_strip_pad2 (n : Nat) :
    (pad2 n).filter (fun x => !strippedByIdRegex x) = pad2 n := by
  simp [pad2, List.filter_cons, (digitChar_props (n / 10)).2, (digitChar_props n).2]

lemma filter_strip_pad3 (n : Nat) :
    (pad3 n).filter (fun x => !strippedByIdRegex x) = pad3 n := by
  simp [pad3, List.filter_cons, (digitChar_props (n / 100)).2,
    (digitChar_props (n / 10)).2, (digitChar_props n).2]

lemma filter_strip_pad4 (n : Nat) :
    (pad4 n).filter (fun x => !strippedByIdRegex x) = pad4 n := by
  simp [pad4, List.filter_cons, (digitChar_props (n / 1000)).2,
    (digitChar_props (n / 100)).2, (digitChar_props (n / 10)).2,
    (digitChar_props n).2]

lemma compactTimestamp_eq (d : JsDate) :
    compactTimestamp d =
      pad4 d.year ++ pad2 d.month ++ pad2 d.day ++
        pad2 d.hour ++ pad2 d.minute ++ pad2 d.second := by
  unfold compactTimestamp toISOString
  have hfilter :
      (pad4 d.year ++ '-' :: pad2 d.month ++ '-' :: pad2 d.day ++
        'T' :: pad2 d.hour ++ ':' :: pad2 d.minute ++ ':' :: pad2 d.second ++
        '.' :: pad3 d.ms ++ ['Z']).filter (fun x => !strippedByIdRegex x) =
      (pad4 d.year ++ pad2 d.month ++ pad2 d.day ++
        pad2 d.hour ++ pad2 d.minute ++ pad2 d.second) ++ pad3 d.ms := by
    simp only [List.append_assoc, List.filter_append, filter_strip_pad2,
      filter_strip_pad3, filter_strip_pad4,
      filter_strip_cons _ _ (by decide : strippedByIdRegex '-' = true),
      filter_strip_cons _ _ (by decide : strippedByIdRegex 'T' = true),
      filter_strip_cons _ _ (by decide : strippedByIdRegex ':' = true),
      filter_strip_cons _ _ (by decide : strippedByIdRegex '.' = true),
      filter_strip_cons _ _ (by decide : strippedByIdRegex 'Z' = true),
      List.filter_nil]
    simp
  rw [show ((String.mk (pad4 d.year ++ '-' :: pad2 d.month ++ '-' :: pad2 d.day ++
      'T' :: pad2 d.hour ++ ':' :: pad2 d.minute ++ ':' :: pad2 d.second ++
      '.' :: pad3 d.ms ++ ['Z'])).toList) =
    (pad4 d.year ++ '-' :: pad2 d.month ++ '-' :: pad2 d.day ++
      'T' :: pad2 d.hour ++ ':' :: pad2 d.minute ++ ':' :: pad2 d.second ++
      '.' :: pad3 d.ms ++ ['Z']) from rfl]
  rw [hfilter]
  have hlen : (pad4 d.year ++ pad2 d.month ++ pad2 d.day ++
      pad2 d.hour ++ pad2 d.minute ++ pad2 d.second).length = 14 := by
    simp [pad4, pad2]
  rw [List.take_append_of_le_length (by rw [hlen]), ← hlen, List.take_length]

lemma compactTimestamp_length (d : JsDate) : (compactTimestamp d).length = 14 := by
  rw [compactTimestamp_eq]
  simp [pad4, pad2]

lemma pad2_digits (n : Nat) : ∀ c ∈ pad2 n, c.isDigit = true := by
  intro c hc
  simp [pad2] at hc
  rcases hc with rfl | rfl <;> exact (digitChar_props _).1

lemma pad4_digits (n : Nat) : ∀ c ∈ pad4 n, c.isDigit = true := by
  intro c hc
  simp [pad4] at hc
  rcases hc with rfl | rfl | rfl | rfl <;> exact (digitChar_props _).1

lemma compactTimestamp_digits (d : JsDate) :
    ∀ c ∈ compactTimestamp d, c.isDigit = true := by
  rw [compactTimestamp_eq]
  intro c hc
  simp only [List.mem_append] at hc
  rcases hc with ((((h | h) | h) | h) | h) | h
  · exact pad4_digits d.year c h
  · exact pad2_digits d.month c h
  · exact pad2_digits d.day c h
  · exact pad2_digits d.hour c h
  · exact pad2_digits d.minute c h
  · exact pad2_digits d.second c h

/-- C5: for every in-range submission timestamp and every freshly drawn
UUID, the generated Readable Identifier is the fixed prefix followed by
exactly 14 decimal digits (the ISO timestamp with separators,
milliseconds and zone markers stripped, truncated to year-through-second
precision), an underscore, and a 6-character upper-cased suffix with no
lowercase characters. -/
theorem readable_identifier_format (d : JsDate) (uuid : String)
    (_hd : d.year ≤ 9999 ∧ d.month ≤ 12 ∧ d.day ≤ 31 ∧ d.hour ≤ 23 ∧
      d.minute ≤ 59 ∧ d.second ≤ 59 ∧ d.ms ≤ 999)
    (hlen : 6 ≤ uuid.length)
    (hhex : ∀ c ∈ uuid.toList.take 6, c ∈ ("0123456789abcdef").toList) :
    ∃ ts suffix : List Char,
      readableId d uuid = "FORM_" ++ String.mk ts ++ "_" ++ String.mk suffix ∧
      ts.length = 14 ∧ (∀ c ∈ ts, c.isDigit = true) ∧
      suffix.length = 6 ∧
      (∀ c ∈ suffix, c.isDigit = true ∨ c.isUpper = true) := by
  refine ⟨compactTimestamp d, (uuid.toList.take 6).map Char.toUpper, rfl,
    compactTimestamp_length d, compactTimestamp_digits d, ?_, ?_⟩
  · simp [List.length_take]
    omega
  · intro c hc
    obtain ⟨x, hx, rfl⟩ := List.mem_map.mp hc
    exact (by decide : ∀ y ∈ ("0123456789abcdef").toList,
      (Char.toUpper y).isDigit = true ∨ (Char.toUpper y).isUpper = true) x (hhex x hx)

theorem readable_identifier_format_witness :
    ∃ ts suffix : List Char,
      readableId ⟨2026, 10, 11, 20, 5, 30, 123⟩ "a1b2c3d4-e5f6" =
        "FORM_" ++ String.mk ts ++ "_" ++ String.mk suffix ∧
      ts.length = 14 ∧ (∀ c ∈ ts, c.isDigit = true) ∧
      suffix.length = 6 ∧
      (∀ c ∈ suffix, c.isDigit = true ∨ c.isUpper = true) :=
  readable_identifier_format ⟨2026, 10, 11, 20, 5, 30, 123⟩ "a1b2c3d4-e5f6"
    (by norm_num) (by decide) (by decide)

lemma colNumberToLettersAux_zero : colNumberToLettersAux 0 = [] := by
  rw [colNumberToLettersAux.eq_def, dif_pos rfl]

lemma colNumberToLettersAux_pos (n : Nat) (h : n ≠ 0) :
    colNumberToLettersAux n =
      colNumberToLettersAux ((n - 1) / 26) ++ [Char.ofNat (65 + (n - 1) % 26)] := by
  rw [colNumberToLettersAux.eq_def, dif_neg h]

lemma colLetters_round_list (n : Nat) :
    ((colNumberToLettersAux n).map Char.toUpper).foldl
      (fun sum ch => sum * 26 + (ch.toNat - 64)) 0 = n := by
  induction n using Nat.strong_induction_on with
  | _ n ih =>
    by_cases h : n = 0
    · subst h
      rw [colNumberToLettersAux_zero]
      rfl
    · rw [colNumberToLettersAux_pos n h, List.map_append, List.foldl_append]
      have hr : (n - 1) % 26 < 26 := Nat.mod_lt _ (by norm_num)
      have hup := (by decide : ∀ r < 26,
        Char.toUpper (Char.ofNat (65 + r)) = Char.ofNat (65 + r) ∧
        (Char.ofNat (65 + r)).toNat = 65 + r) _ hr
      have hm : (n - 1) / 26 < n := by
        have := Nat.div_le_self (n - 1) 26
        omega
      simp only [List.map_cons, List.map_nil, List.foldl_cons, List.foldl_nil]
      rw [hup.1, hup.2, ih _ hm]
      have hdm := Nat.div_add_mod (n - 1) 26
      omega

lemma colNumberToLettersAux_one : colNumberToLettersAux 1 = ['A'] := by
  rw [colNumberToLettersAux_pos 1 (by norm_num)]
  norm_num [colNumberToLettersAux_zero]

lemma colNumberToLettersAux_27 : colNumberToLettersAux 27 = ['A', 'A'] := by
  rw [colNumberToLettersAux_pos 27 (by norm_num)]
  norm_num [colNumberToLettersAux_one]

/-- C9: the two pure column-letter helpers are mutually inverse — for
every positive column number, converting to letters and back yields the
same number — and multi-letter columns are handled correctly, in
particular column 27 is rendered as the two-letter name. -/
theorem column_letter_round_trip :
    (∀ n : Nat, 0 < n → colLettersToNumber (colNumberToLetters n) = n) ∧
    colNumberToLetters 27 = "AA" := by
  constructor
  · intro n _
    unfold colLettersToNumber colNumberToLetters
    exact colLetters_round_list n
  · unfold colNumberToLetters
    rw [colNumberToLettersAux_27]

theorem column_letter_round_trip_witness :
    colLettersToNumber (colNumberToLetters 27) = 27 :=
  column_letter_round_trip.1 27 (by norm_num)
